import Mathlib

/-!
Verification of the cabinet object store (Go sources: main.go, repl.go)
against its natural-language specification.

Keys and values of the underlying ordered KV store (leveldb) are byte
strings; we model them as lists of naturals, with the bytewise
lexicographic comparator that leveldb uses. Encoded protobuf records are
modelled by their decoded content.
-/

/-- Bytes of a string literal (UTF-8 code points; all strings used by the
program are ASCII, so these are the wire bytes). -/
def strBytes (s : String) : List Nat := s.data.map Char.toNat

/-- Bytewise lexicographic strict order, as the leveldb default comparator
orders keys. -/
def bytesLt : List Nat → List Nat → Bool
  | _, [] => false
  | [], _ :: _ => true
  | a :: as, b :: bs => if a < b then true else if b < a then false else bytesLt as bs

/-- Non-strict bytewise lexicographic order. -/
def bytesLe (x y : List Nat) : Bool := !(bytesLt y x)

/-- Boolean prefix test on byte strings (strings.HasPrefix in the source). -/
def hasPfx : List Nat → List Nat → Bool
  | [], _ => true
  | _ :: _, [] => false
  | a :: as, b :: bs => a == b && hasPfx as bs

/-- Event type tag of the protobuf Event record (data.proto); values other
than UPLOAD and DELETE hit the default branch of the replication switch. -/
inductive EventType
  | upload
  | delete
  | unknown (code : Nat)
deriving DecidableEq, Repr

/-- The protobuf Event record (data package). -/
structure Event where
  type : EventType
  drawer : List Nat
  filename : List Nat
  id : List Nat
deriving DecidableEq, Repr

/-- The protobuf MetaData record (data package). -/
structure MetaData where
  contentType : List Nat
  source : Option (List Nat)
deriving DecidableEq, Repr

/-- A value stored in the KV store: either raw file bytes or the encoding
of a structured record, represented by its decoded content. -/
inductive Val
  | bytes (content : List Nat)
  | encodedEvent (e : Event)
  | encodedMeta (m : MetaData)
deriving DecidableEq, Repr

/-- The local KV store as an association list from keys to values. -/
abbrev Store := List (List Nat × Val)

/-- One operation of a leveldb write batch. -/
inductive Op
  | put (k : List Nat) (v : Val)
  | del (k : List Nat)
deriving DecidableEq, Repr

/-- Point lookup (DB.Get); a missing key is a distinct outcome. -/
def kvGet : Store → List Nat → Option Val
  | [], _ => none
  | (k1, v) :: rest, k => if k1 == k then some v else kvGet rest k

/-- Existence check (DB.Has). -/
def kvHas (st : Store) (k : List Nat) : Bool := (kvGet st k).isSome

/-- Apply one batch operation to the store. -/
def applyOp (st : Store) : Op → Store
  | Op.put k v => (k, v) :: st.filter (fun p => !(p.1 == k))
  | Op.del k => st.filter (fun p => !(p.1 == k))

/-- Atomically apply a whole write batch in order (DB.Write). -/
def applyBatch (st : Store) (ops : List Op) : Store := ops.foldl applyOp st

/-- Key of a stored file blob: file:<drawer>:<filename> (main.go). -/
def fileKey (drawer filename : List Nat) : List Nat :=
  strBytes "file:" ++ drawer ++ strBytes ":" ++ filename

/-- Key of a stored metadata record: meta:<drawer>:<filename> (main.go). -/
def metaKey (drawer filename : List Nat) : List Nat :=
  strBytes "meta:" ++ drawer ++ strBytes ":" ++ filename

/-- The latest-event pointer key (main.go, repl.go). -/
def latestEventKey : List Nat := strBytes "latest_event"

/-- Event key minted at commit time now:
"event:" + strconv.FormatInt(now, 10) (main.go upload and deleteFile).
The decimal is NOT zero-padded. -/
def eventKey (now : Nat) : List Nat := strBytes "event:" ++ strBytes (Nat.repr now)

/-- Zero-padded fixed-width event key as the specification mandates
(20-digit decimal), for comparison with the source's eventKey. -/
def paddedEventKey (now : Nat) : List Nat :=
  strBytes "event:" ++ strBytes (String.mk (List.replicate (20 - (Nat.repr now).length) (Char.ofNat 48)) ++ Nat.repr now)

/-- The range-end sentinel of the replication catch-up scan
(repl.go handleWebsocket: util.Range Limit "f"). -/
def fSentinel : List Nat := strBytes "f"

/-- Membership of a key in the half-open catch-up range [cursor, "f")
that handleWebsocket iterates. -/
def inReplRange (cursor k : List Nat) : Bool := bytesLe cursor k && bytesLt k fSentinel

/-- A key has one of the four shapes the program ever writes. -/
def storeKeyShaped (k : List Nat) : Prop :=
  (∃ t, k = eventKey t) ∨ (∃ d f, k = fileKey d f) ∨ (∃ d f, k = metaKey d f) ∨ k = latestEventKey

/-- Boolean test that a key lies in the event namespace. -/
def isEventKeyForm (k : List Nat) : Bool := hasPfx (strBytes "event:") k

/-- The protobuf ReplicationStart handshake record; the event field is
optional on the wire. -/
structure ReplicationStart where
  event : Option (List Nat)
deriving DecidableEq, Repr

/-- GetEvent of the generated protobuf code: the empty string when the
field is absent. -/
def getEventField (m : ReplicationStart) : List Nat :=
  match m.event with
  | none => []
  | some s => s

/-- Cursor extraction of handleWebsocket (repl.go): the session proceeds
only when the event field value begins with event:. -/
def handleReplicationStart (m : ReplicationStart) : Option (List Nat) :=
  if hasPfx (strBytes "event:") (getEventField m) then some (getEventField m) else none

/-- Observable actions the server session takes after a successful
handshake, in order (repl.go handleWebsocket). -/
inductive SessionAction
  | subscribe
  | catchupScan (cursor : List Nat)
deriving DecidableEq, Repr

/-- Actions taken by handleWebsocket after reading the handshake: nothing
on rejection; subscribe to the bus then scan the catch-up range on
acceptance. -/
def sessionStartActions (m : ReplicationStart) : List SessionAction :=
  match handleReplicationStart m with
  | none => []
  | some cursor => [SessionAction.subscribe, SessionAction.catchupScan cursor]

/-- Result of processing one replicated message in replicateUntilError
(repl.go): the store after the step, the batch that was built, the events
pushed onto the local bus, whether the batch was committed, and whether
the loop continues with the next message. -/
structure StepResult where
  store : Store
  batch : List Op
  emitted : List Event
  written : Bool
  nextMessage : Bool
deriving DecidableEq, Repr

/-- The write batch replicateUntilError builds for a new event: the event
record under its own id and the latest_event pointer always; for UPLOAD
additionally the file bytes and a metadata record carrying the fetched
content type when the fetch succeeded; for DELETE a delete of the file
key (and of nothing else); none for an unknown type. -/
def buildReplBatch (e : Event) (fetched : Option (List Nat × List Nat)) : Option (List Op) :=
  let base := [Op.put e.id (Val.encodedEvent e), Op.put latestEventKey (Val.bytes e.id)]
  match e.type with
  | EventType.upload =>
    match fetched with
    | none => some base
    | some (content, mimeType) =>
      some (base ++ [Op.put (fileKey e.drawer e.filename) (Val.bytes content),
                     Op.put (metaKey e.drawer e.filename) (Val.encodedMeta ⟨mimeType, none⟩)])
  | EventType.delete => some (base ++ [Op.del (fileKey e.drawer e.filename)])
  | EventType.unknown _ => none

/-- One iteration of the replication client's message loop
(repl.go replicateUntilError, lines 122-174): skip duplicates, otherwise
build and commit the batch; fetched is the outcome of the file download
for UPLOAD events, writeOk the outcome of the DB write. -/
def replStep (st : Store) (e : Event) (fetched : Option (List Nat × List Nat)) (writeOk : Bool) : StepResult :=
  if kvHas st e.id then ⟨st, [], [], false, true⟩
  else
    match buildReplBatch e fetched with
    | none => ⟨st, [], [], false, false⟩
    | some ops =>
      if writeOk then ⟨applyBatch st ops, ops, [], true, true⟩
      else ⟨st, ops, [], false, false⟩

/-- Result of an HTTP mutation handler: status code, the batch it built,
whether the batch committed, and the events pushed onto the bus. -/
structure HttpResult where
  status : Nat
  batch : List Op
  written : Bool
  emitted : List Event
deriving DecidableEq, Repr

/-- The DELETE handler (main.go deleteFile) after authentication and path
parsing: one batch deleting file and meta keys, putting the event record
under its own key and overwriting latest_event; 204 and a bus push on
commit, 500 and no push on write failure. -/
def deleteFile (drawerName filename : List Nat) (now : Nat) (writeOk : Bool) : HttpResult :=
  let key := eventKey now
  let ev : Event := ⟨EventType.delete, drawerName, filename, key⟩
  let batch := [Op.del (fileKey drawerName filename), Op.del (metaKey drawerName filename),
                Op.put key (Val.encodedEvent ev), Op.put latestEventKey (Val.bytes key)]
  if writeOk then ⟨204, batch, true, [ev]⟩ else ⟨500, batch, false, []⟩

/-- Result of the GET file handler: status, Content-Type header,
Content-Location header, and the delivered value. -/
structure DeliverResult where
  status : Nat
  contentType : Option (List Nat)
  contentLocation : Option (List Nat)
  body : Option Val
deriving DecidableEq, Repr

/-- The default content type used when metadata is missing. -/
def octetStream : List Nat := strBytes "application/octet-stream"

/-- The GET handler (main.go deliverFile) after path parsing: 404 when the
file key is absent; metadata absent falls back to
application/octet-stream with no Content-Location; metadata that fails to
decode yields 500; otherwise headers come from the metadata record. -/
def deliverFile (st : Store) (drawer filename : List Nat) : DeliverResult :=
  match kvGet st (fileKey drawer filename) with
  | none => ⟨404, none, none, none⟩
  | some fileVal =>
    match kvGet st (metaKey drawer filename) with
    | none => ⟨200, some octetStream, none, some fileVal⟩
    | some (Val.encodedMeta m) => ⟨200, some m.contentType, m.source, some fileVal⟩
    | some _ => ⟨500, none, none, none⟩

/-- The allowed-characters constant of validDrawerName (main.go line 464),
verbatim from the source. -/
def allowedDrawerChars : List Char :=
  "abcefghijklmnopqrstuvwxyzABCDEFGHIJKLMNOPQRSTUVWXYZ0123456789..:,;$-".toList

/-- Drawer-name validation (main.go validDrawerName): every rune of the
name must occur in the allowed-characters constant. -/
def validDrawerName (drawer : String) : Bool :=
  drawer.toList.all (fun r => allowedDrawerChars.contains r)

/-- Drawer-name rule as the specification states it (I6): non-empty, and
every character is a letter, a digit, or one of . : , ; $ -. -/
def specDrawerNameOk (drawer : String) : Bool :=
  drawer.length != 0 &&
    drawer.toList.all (fun r => r.isAlpha || r.isDigit || [46, 58, 44, 59, 36, 45].contains r.toNat)

/-- One failure-handling step of the replication client's outer loop
(repl.go replicate): given the retry counter and whether the failed
session lasted less than five seconds, return the new counter and the
number of seconds slept. -/
def backoffStep (count : Nat) (fast : Bool) : Nat × Nat :=
  let count2 := if fast then (if count < 5 then count + 1 else count) else 0
  (count2, if count2 > 0 then 2 ^ count2 else 0)

/-- Retry counter after k consecutive immediate failures from a fresh
start. -/
def countAfter : Nat → Nat
  | 0 => 0
  | k + 1 => (backoffStep (countAfter k) true).1

/-- Seconds slept after failure number k+1 of a run of consecutive
immediate failures. -/
def sleepAt (k : Nat) : Nat := (backoffStep (countAfter k) true).2

/-- Concrete store used to evaluate the replication client on a DELETE
event: it holds the file record and the metadata record of file b in
drawer a. -/
def replDeleteSampleStore : Store :=
  [(fileKey [97] [98], Val.bytes [99]), (metaKey [97] [98], Val.encodedMeta ⟨[100], none⟩)]

/-- A DELETE event for file b of drawer a whose id is not yet present in
replDeleteSampleStore. -/
def replDeleteSampleEvent : Event :=
  ⟨EventType.delete, [97], [98], strBytes "event:7"⟩

theorem bytesLt_nil_right (xs : List Nat) : bytesLt xs [] = false := by
  cases xs <;> rfl

theorem hasPfx_append (p s : List Nat) : hasPfx p (p ++ s) = true := by
  induction p with
  | nil => rfl
  | cons a as ih => simp [hasPfx, ih]

theorem eventKey_lt_fSentinel (t : Nat) : bytesLt (eventKey t) fSentinel = true := rfl

theorem fileKey_not_lt_fSentinel (d f : List Nat) : bytesLt (fileKey d f) fSentinel = false := rfl

theorem metaKey_not_lt_fSentinel (d f : List Nat) : bytesLt (metaKey d f) fSentinel = false := rfl

theorem latest_not_lt_fSentinel : bytesLt latestEventKey fSentinel = false := rfl

theorem isEventKeyForm_eventKey (t : Nat) : isEventKeyForm (eventKey t) = true :=
  hasPfx_append (strBytes "event:") (strBytes (Nat.repr t))

theorem isEventKeyForm_fileKey (d f : List Nat) : isEventKeyForm (fileKey d f) = false := rfl

theorem isEventKeyForm_metaKey (d f : List Nat) : isEventKeyForm (metaKey d f) = false := rfl

theorem isEventKeyForm_latest : isEventKeyForm latestEventKey = false := rfl

theorem countAfter_eq_min (k : Nat) : countAfter k = min k 5 := by
  induction k with
  | zero => rfl
  | succ k ih =>
    show (backoffStep (countAfter k) true).1 = min (k + 1) 5
    rw [ih]
    simp only [backoffStep, if_true]
    split <;> omega

theorem sleepAt_eq (k : Nat) : sleepAt k = min (2 ^ (k + 1)) 32 := by
  have h := countAfter_eq_min k
  unfold sleepAt
  rw [h]
  simp only [backoffStep, if_true]
  rcases Nat.lt_or_ge k 5 with hk | hk
  · have h5 : min k 5 = k := by omega
    rw [h5]
    have hpow : 2 ^ (k + 1) ≤ 32 := by
      calc 2 ^ (k + 1) ≤ 2 ^ 5 := Nat.pow_le_pow_right (by omega) (by omega)
        _ = 32 := rfl
    simp [hk]
    omega
  · have h5 : min k 5 = 5 := by omega
    rw [h5]
    have hpow : 32 ≤ 2 ^ (k + 1) := by
      calc (32 : Nat) = 2 ^ 5 := rfl
        _ ≤ 2 ^ (k + 1) := Nat.pow_le_pow_right (by omega) (by omega)
    norm_num
    omega

/-- Claim C1: processing a replicated event whose id already exists
locally is a no-op: the store is unchanged, no batch operation is built
or written, no event is emitted, and the loop continues with the next
message. -/
theorem replStep_duplicate_noop (st : Store) (e : Event)
    (fetched : Option (List Nat × List Nat)) (writeOk : Bool)
    (h : kvHas st e.id = true) :
    replStep st e fetched writeOk = ⟨st, [], [], false, true⟩ := by
  simp [replStep, h]

theorem replStep_duplicate_noop_witness :
    replStep [(strBytes "event:7", Val.bytes [])]
        ⟨EventType.delete, [97], [98], strBytes "event:7"⟩ none true
      = ⟨[(strBytes "event:7", Val.bytes [])], [], [], false, true⟩ :=
  replStep_duplicate_noop _ _ _ _ (by decide)

/-- Claim C2 is refuted by the source: the batch replicateUntilError
builds for a new DELETE event deletes only the file key; no delete of the
meta key is in the batch, so after the commit the metadata record is
still present while the file record is gone. -/
theorem replStep_delete_keeps_meta :
    (replStep replDeleteSampleStore replDeleteSampleEvent none true).batch
      = [Op.put (strBytes "event:7") (Val.encodedEvent replDeleteSampleEvent),
         Op.put latestEventKey (Val.bytes (strBytes "event:7")),
         Op.del (fileKey [97] [98])]
    ∧ Op.del (metaKey [97] [98]) ∉ (replStep replDeleteSampleStore replDeleteSampleEvent none true).batch
    ∧ kvHas (replStep replDeleteSampleStore replDeleteSampleEvent none true).store (metaKey [97] [98]) = true
    ∧ kvHas (replStep replDeleteSampleStore replDeleteSampleEvent none true).store (fileKey [97] [98]) = false
    ∧ kvHas replDeleteSampleStore (strBytes "event:7") = false := by
  decide

/-- Claim C3 is refuted by the source: event keys are built from the
unpadded decimal timestamp, so the keys minted at times 9 and 10 sort
lexicographically against chronological order; the zero-padded keys the
specification mandates would sort correctly. -/
theorem eventKey_not_zero_padded :
    eventKey 9 = strBytes "event:9"
    ∧ eventKey 10 = strBytes "event:10"
    ∧ bytesLt (eventKey 10) (eventKey 9) = true
    ∧ bytesLt (paddedEventKey 9) (paddedEventKey 10) = true := by
  decide

/-- Claim C7: after k+1 consecutive failures each under five seconds the
sleep is min (2^(k+1)) 32 seconds, giving the sequence 2, 4, 8, 16, 32,
32, ...; a failure of a session that survived at least five seconds
resets the counter and sleeps zero seconds, and the next immediate
failure sleeps 2 seconds again. -/
theorem backoff_sequence :
    (∀ k, sleepAt k = min (2 ^ (k + 1)) 32)
    ∧ (∀ c, backoffStep c false = (0, 0))
    ∧ backoffStep 0 true = (1, 2) := by
  refine ⟨sleepAt_eq, fun c => rfl, rfl⟩

/-- Claim C8: the DELETE handler builds one batch that deletes the file
key and the meta key, puts one event record of type DELETE whose id
equals its own key, and overwrites latest_event with that key; on commit
it answers 204 and pushes exactly that event, and on write failure it
answers 500 with nothing written and nothing emitted. -/
theorem deleteFile_batch_atomic (d f : List Nat) (now : Nat) :
    deleteFile d f now true
      = ⟨204, [Op.del (fileKey d f), Op.del (metaKey d f),
               Op.put (eventKey now) (Val.encodedEvent ⟨EventType.delete, d, f, eventKey now⟩),
               Op.put latestEventKey (Val.bytes (eventKey now))], true,
          [⟨EventType.delete, d, f, eventKey now⟩]⟩
    ∧ deleteFile d f now false
      = ⟨500, [Op.del (fileKey d f), Op.del (metaKey d f),
               Op.put (eventKey now) (Val.encodedEvent ⟨EventType.delete, d, f, eventKey now⟩),
               Op.put latestEventKey (Val.bytes (eventKey now))], false, []⟩ := by
  exact ⟨rfl, rfl⟩

/-- Claim C9 is refuted by the source: the allowed-characters constant of
validDrawerName omits the letter d, so the all-letter drawer name d is
rejected even though the specification's alphabet accepts it; names with
characters outside the alphabet are rejected as the claim states. -/
theorem validDrawerName_rejects_letter_d :
    validDrawerName "d" = false
    ∧ specDrawerNameOk "d" = true
    ∧ validDrawerName "abc" = true
    ∧ validDrawerName "a b" = false
    ∧ specDrawerNameOk "a b" = false := by
  decide

/-- Claim C5: a handshake whose event field is absent or whose value does
not begin with event: is rejected before any subscription or send; a
value beginning with event: makes the session proceed to catch-up from
that cursor. -/
theorem handshake_reject_or_proceed (m : ReplicationStart) :
    ((m.event = none ∨ hasPfx (strBytes "event:") (getEventField m) = false) →
      handleReplicationStart m = none ∧ sessionStartActions m = [])
    ∧ (hasPfx (strBytes "event:") (getEventField m) = true →
      handleReplicationStart m = some (getEventField m)
      ∧ sessionStartActions m
          = [SessionAction.subscribe, SessionAction.catchupScan (getEventField m)]) := by
  constructor
  · intro h
    have hf : hasPfx (strBytes "event:") (getEventField m) = false := by
      rcases h with h | h
      · have h0 : getEventField m = [] := by simp [getEventField, h]
        rw [h0]
        rfl
      · exact h
    simp [handleReplicationStart, sessionStartActions, hf]
  · intro h
    simp [handleReplicationStart, sessionStartActions, h]

theorem handshake_reject_witness :
    handleReplicationStart ⟨none⟩ = none ∧ sessionStartActions ⟨none⟩ = [] :=
  (handshake_reject_or_proceed ⟨none⟩).1 (Or.inl rfl)

/-- Claim C6: for a new UPLOAD event, when the file download from the
parent fails the client still commits a batch holding only the event
record under its id and the latest_event pointer; when the download
succeeds the batch additionally puts the file content and a metadata
record carrying the fetched content type. -/
theorem replStep_upload_fetch (st : Store) (e : Event)
    (h1 : kvHas st e.id = false) (h2 : e.type = EventType.upload) :
    (replStep st e none true
      = ⟨applyBatch st [Op.put e.id (Val.encodedEvent e), Op.put latestEventKey (Val.bytes e.id)],
         [Op.put e.id (Val.encodedEvent e), Op.put latestEventKey (Val.bytes e.id)],
         [], true, true⟩)
    ∧ ∀ content mimeType,
        (replStep st e (some (content, mimeType)) true).batch
          = [Op.put e.id (Val.encodedEvent e), Op.put latestEventKey (Val.bytes e.id),
             Op.put (fileKey e.drawer e.filename) (Val.bytes content),
             Op.put (metaKey e.drawer e.filename) (Val.encodedMeta ⟨mimeType, none⟩)] := by
  constructor
  · simp [replStep, h1, buildReplBatch, h2]
  · intro content mimeType
    simp [replStep, h1, buildReplBatch, h2]

theorem replStep_upload_fetch_witness :
    replStep [] ⟨EventType.upload, [97], [98], strBytes "event:1"⟩ none true
      = ⟨applyBatch []
           [Op.put (strBytes "event:1")
              (Val.encodedEvent ⟨EventType.upload, [97], [98], strBytes "event:1"⟩),
            Op.put latestEventKey (Val.bytes (strBytes "event:1"))],
         [Op.put (strBytes "event:1")
            (Val.encodedEvent ⟨EventType.upload, [97], [98], strBytes "event:1"⟩),
          Op.put latestEventKey (Val.bytes (strBytes "event:1"))],
         [], true, true⟩ :=
  (replStep_upload_fetch [] ⟨EventType.upload, [97], [98], strBytes "event:1"⟩
    (by decide) rfl).1

/-- Claim C10: a GET for a file whose file record exists but whose
metadata record is absent answers 200 with the stored bytes, the
Content-Type application/octet-stream, and no Content-Location header. -/
theorem deliverFile_missing_meta (st : Store) (d f : List Nat) (v : Val)
    (h1 : kvGet st (fileKey d f) = some v)
    (h2 : kvGet st (metaKey d f) = none) :
    deliverFile st d f = ⟨200, some octetStream, none, some v⟩ := by
  simp [deliverFile, h1, h2]

theorem deliverFile_missing_meta_witness :
    deliverFile [(fileKey [97] [98], Val.bytes [1, 2])] [97] [98]
      = ⟨200, some octetStream, none, some (Val.bytes [1, 2])⟩ :=
  deliverFile_missing_meta _ _ _ _ (by decide) (by decide)

/-- Claim C4: the sentinel f of the catch-up scan is a valid range end:
every event key is strictly below it, the file, meta and latest_event
keys are strictly above it, so for a cursor in the event namespace the
half-open range from the cursor to f selects exactly the event keys at or
after the cursor from any store whose keys have the four shapes the
program writes. -/
theorem repl_range_sentinel (cursor : List Nat)
    (hc : hasPfx (strBytes "event:") cursor = true) :
    (∀ t, bytesLt (eventKey t) fSentinel = true)
    ∧ (∀ d f, bytesLt fSentinel (fileKey d f) = true)
    ∧ (∀ d f, bytesLt fSentinel (metaKey d f) = true)
    ∧ bytesLt fSentinel latestEventKey = true
    ∧ (∀ t, inReplRange cursor (eventKey t) = bytesLe cursor (eventKey t))
    ∧ (∀ d f, inReplRange cursor (fileKey d f) = false)
    ∧ (∀ d f, inReplRange cursor (metaKey d f) = false)
    ∧ inReplRange cursor latestEventKey = false
    ∧ (∀ keys : List (List Nat), (∀ k ∈ keys, storeKeyShaped k) →
        keys.filter (fun k => inReplRange cursor k)
          = keys.filter (fun k => isEventKeyForm k && bytesLe cursor k)) := by
  refine ⟨fun t => rfl, fun d f => rfl, fun d f => rfl, rfl, ?_, ?_, ?_, ?_, ?_⟩
  · intro t
    simp [inReplRange, eventKey_lt_fSentinel]
  · intro d f
    simp [inReplRange, fileKey_not_lt_fSentinel]
  · intro d f
    simp [inReplRange, metaKey_not_lt_fSentinel]
  · simp [inReplRange, latest_not_lt_fSentinel]
  · intro keys hk
    induction keys with
    | nil => rfl
    | cons k ks ih =>
      have hk1 : storeKeyShaped k := hk k (List.mem_cons_self _ _)
      have hks : ∀ x ∈ ks, storeKeyShaped x := fun x hx => hk x (List.mem_cons_of_mem _ hx)
      have heq : inReplRange cursor k = (isEventKeyForm k && bytesLe cursor k) := by
        rcases hk1 with ⟨t, rfl⟩ | ⟨d, f, rfl⟩ | ⟨d, f, rfl⟩ | rfl
        · simp [inReplRange, eventKey_lt_fSentinel, isEventKeyForm_eventKey, Bool.and_comm]
        · simp [inReplRange, fileKey_not_lt_fSentinel, isEventKeyForm_fileKey]
        · simp [inReplRange, metaKey_not_lt_fSentinel, isEventKeyForm_metaKey]
        · simp [inReplRange, latest_not_lt_fSentinel, isEventKeyForm_latest]
      simp only [List.filter_cons, heq, ih hks]

theorem repl_range_sentinel_witness :
    inReplRange (strBytes "event:0") (eventKey 5)
      = bytesLe (strBytes "event:0") (eventKey 5) :=
  (repl_range_sentinel (strBytes "event:0") (by decide)).2.2.2.2.1 5
